import Mathlib

/-!
# gform: orchestration of `main.go`

A shallow embedding of the single source file `main.go`.  The program is a
linear script over the Drive and Forms REST clients.  Every call that leaves
the process (file system, Drive, Forms) is modelled by the answer the outside
world gives to it: a `World` value carries one answer per form-level call and
one answer per directory entry for each of the three per-image calls.  The
program itself is written as explicit state passing over `State`, which holds
the trace of external calls, the text written to standard output, the
messages sent to the `log` package (standard error), and the set of image
file handles that are currently open.

Conventions.

* A Go `error` is modelled by its message (what `%v` prints).
* `log.Fatalf` appends its message to the log and ends the process with exit
  code 1 without running deferred calls (`os.Exit`).
* The timestamp that the `log` package puts in front of each message is not
  modelled.
* `index` is a Go `int` that is incremented at most once per element of the
  slice returned by `ioutil.ReadDir`; a slice length never exceeds the largest
  `int`, so the increment cannot overflow and `int64(index)` is the same
  number.  It is modelled as a natural number.
* `filepath.Join` and `filepath.Base` are standard-library functions; they are
  taken as parameters (`Filepath`).
-/

namespace Gform

/-! ## Data model -/

/-- Kind of a directory entry as reported by `os.FileInfo.Mode()`. -/
inductive FileKind
  | regular
  | dir
  | symlink
  | namedPipe
  | socket
  | device
  deriving DecidableEq, Repr

/-- The part of `os.FileInfo` the program looks at. -/
structure FileInfo where
  Name : String
  kind : FileKind
  deriving DecidableEq, Repr

/-- Go: `file.IsDir()`. -/
def FileInfo.IsDir (f : FileInfo) : Bool :=
  decide (f.kind = FileKind.dir)

/-- Go: `file.Mode().IsRegular()` (not called by the program; used to state
what a regular file is). -/
def FileInfo.IsRegular (f : FileInfo) : Bool :=
  decide (f.kind = FileKind.regular)

/-- Go: `forms.Option`. -/
structure FormOption where
  Value : String
  deriving DecidableEq, Repr

/-- Go: `forms.ChoiceQuestion`. -/
structure ChoiceQuestion where
  Options : List FormOption
  Type_ : String
  deriving DecidableEq, Repr

/-- Go: `forms.Question`. -/
structure Question where
  Required : Bool
  ChoiceQuestion : ChoiceQuestion
  deriving DecidableEq, Repr

/-- Go: `forms.Image`. -/
structure Image where
  SourceUri : String
  deriving DecidableEq, Repr

/-- Go: `forms.QuestionItem`. -/
structure QuestionItem where
  Image : Image
  Question : Question
  deriving DecidableEq, Repr

/-- Go: `forms.Item`. -/
structure Item where
  Title : String
  QuestionItem : QuestionItem
  deriving DecidableEq, Repr

/-- Go: `forms.Location`. -/
structure Location where
  Index : Nat
  ForceSendFields : List String
  deriving DecidableEq, Repr

/-- Go: `forms.CreateItemRequest`. -/
structure CreateItemRequest where
  Item : Item
  Location : Location
  deriving DecidableEq, Repr

/-- Go: `forms.Request` (only the `CreateItem` field is ever set). -/
structure Request where
  CreateItem : CreateItemRequest
  deriving DecidableEq, Repr

/-- Go: `drive.Permission`. -/
structure Permission where
  Type_ : String
  Role : String
  EmailAddress : String
  deriving DecidableEq, Repr

/-- The fields of the `forms.Form` returned by `Forms.Create` that are read. -/
structure CreatedForm where
  FormId : String
  ResponderUri : String
  deriving DecidableEq, Repr

/-- An open `*os.File`: `serial` tells apart the handles of one run,
`name` is what `imageFile.Name()` returns (the path given to `os.Open`). -/
structure Handle where
  serial : Nat
  name : String
  deriving DecidableEq, Repr

/-- Answer of an external call: `none` is a nil error, `some msg` an error. -/
abbrev Err := Option String

deriving instance DecidableEq for Except

/-- One external call together with the answer it got. -/
inductive Event
  | formsCreate (title : String) (res : Except String CreatedForm)
  | permissionsCreate (fileId : String) (perm : Permission) (err : Err)
  | readDir (dirname : String) (err : Err)
  | osOpen (path : String) (res : Except String Handle)
  | filesCreate (name : String) (media : Handle) (res : Except String String)
  | formsBatchUpdate (formId : String) (requests : List Request) (err : Err)
  | fileClose (h : Handle)
  deriving DecidableEq

/-- A directory entry together with the answers the outside world gives to the
three calls the program may make for it. -/
structure DirEntry where
  info : FileInfo
  osOpen : Err
  filesCreate : Except String String
  permissionsCreate : Err

/-- The answers of the outside world to the form-level calls. -/
structure World where
  readFile : Except String String
  jwtConfigFromJSON : Err
  formsNewService : Err
  driveNewService : Err
  formsCreate : Except String CreatedForm
  sharePermissionsCreate : Err
  readDir : Except String (List DirEntry)
  formsBatchUpdate : Err

/-- The command-line flags after `flag.Parse()`. -/
structure Flags where
  credentialsFile : String
  imageFolder : String
  personalEmail : String

/-- The two `path/filepath` functions the program calls. -/
structure Filepath where
  Join : String → String → String
  Base : String → String

/-- Observable state of a run. -/
structure State where
  trace : List Event
  stdout : List String
  log : List String
  openFiles : List Handle
  opened : Nat

/-- State at process start. -/
def State.init : State :=
  { trace := [], stdout := [], log := [], openFiles := [], opened := 0 }

/-- Append an external call to the trace. -/
def State.record (st : State) (e : Event) : State :=
  { st with trace := st.trace ++ [e] }

/-- Go: `fmt.Printf` (one write to standard output). -/
def State.printf (st : State) (s : String) : State :=
  { st with stdout := st.stdout ++ [s] }

/-- Go: `log.Printf` (one message to the log stream). -/
def State.logPrintf (st : State) (s : String) : State :=
  { st with log := st.log ++ [s] }

/-- Go: a successful `os.Open`: a fresh handle joins the open set. -/
def State.openFile (st : State) (path : String) : Handle × State :=
  let h : Handle := { serial := st.opened, name := path }
  (h, { st with trace := st.trace ++ [Event.osOpen path (Except.ok h)],
                openFiles := h :: st.openFiles,
                opened := st.opened + 1 })

/-- Go: `imageContent.Close()`. -/
def State.closeFile (st : State) (h : Handle) : State :=
  { st with trace := st.trace ++ [Event.fileClose h],
            openFiles := st.openFiles.filter (fun x => decide (x ≠ h)) }

/-- How a run ends. -/
structure Outcome where
  exitCode : Nat
  st : State

/-- Go: `log.Fatalf`: log the message, then `os.Exit(1)`; deferred calls of
`main` are not run. -/
def logFatalf (st : State) (msg : String) : Outcome :=
  { exitCode := 1, st := st.logPrintf msg }

/-! ## The program -/

/-- Go: `uploadAndMakeImagePublic`. The two Drive answers come from the
directory entry `w`. -/
def uploadAndMakeImagePublic (fp : Filepath) (w : DirEntry) (imageFile : Handle)
    (st : State) : Except String String × State :=
  let st1 := st.record (Event.filesCreate (fp.Base imageFile.name) imageFile w.filesCreate)
  match w.filesCreate with
  | Except.error err => (Except.error ("failed to upload image: " ++ err), st1)
  | Except.ok fileId =>
    let st2 := st1.record
      (Event.permissionsCreate fileId
        { Type_ := "anyone", Role := "reader", EmailAddress := "" } w.permissionsCreate)
    match w.permissionsCreate with
    | some err => (Except.error ("failed to make image public: " ++ err), st2)
    | none => (Except.ok ("https://drive.google.com/uc?id=" ++ fileId), st2)

/-- Go: `shareFormWithEmail`. -/
def shareFormWithEmail (w : World) (fileId email : String) (st : State) : Err × State :=
  let permission : Permission := { Type_ := "user", Role := "writer", EmailAddress := email }
  let st1 := st.record (Event.permissionsCreate fileId permission w.sharePermissionsCreate)
  match w.sharePermissionsCreate with
  | some err => (some ("failed to share form with email: " ++ err), st1)
  | none => (none, st1)

/-- The `forms.Request` literal built in the loop body of `main`. -/
def mkRequest (imageURL : String) (index : Nat) : Request :=
  { CreateItem :=
    { Item :=
      { Title := "Select an option for the image below",
        QuestionItem :=
        { Image := { SourceUri := imageURL },
          Question :=
          { Required := true,
            ChoiceQuestion :=
            { Options := [{ Value := "Option 1" }, { Value := "Option 2" }],
              Type_ := "RADIO" } } } },
      Location := { Index := index, ForceSendFields := ["Index"] } } }

/-- The variables of `main` that the loop changes; `deferred` is the stack of
`defer imageContent.Close()` calls registered so far (latest first). -/
structure LoopState where
  st : State
  requests : List Request
  index : Nat
  deferred : List Handle

/-- One iteration of `for _, file := range imageFiles`. -/
def loopBody (fp : Filepath) (flags : Flags) (ls : LoopState) (file : DirEntry) : LoopState :=
  if !file.info.IsDir then
    let imagePath := fp.Join flags.imageFolder file.info.Name
    match file.osOpen with
    | some err =>
      let st1 := ls.st.record (Event.osOpen imagePath (Except.error err))
      { ls with st := st1.logPrintf ("Failed to read image " ++ imagePath ++ ": " ++ err) }
    | none =>
      let (imageContent, st1) := ls.st.openFile imagePath
      let deferred := imageContent :: ls.deferred
      match uploadAndMakeImagePublic fp file imageContent st1 with
      | (Except.error err, st2) =>
        { ls with st := st2.logPrintf ("Failed to upload image " ++ imagePath ++ ": " ++ err),
                  deferred := deferred }
      | (Except.ok imageURL, st2) =>
        { st := st2,
          requests := ls.requests ++ [mkRequest imageURL ls.index],
          index := ls.index + 1,
          deferred := deferred }
  else ls

/-- The whole `for` loop of `main`. -/
def loop (fp : Filepath) (flags : Flags) (ls : LoopState) (imageFiles : List DirEntry) :
    LoopState :=
  imageFiles.foldl (loopBody fp flags) ls

/-- Run the deferred calls of `main` when it returns (latest first). -/
def runDeferred (st : State) (deferred : List Handle) : State :=
  deferred.foldl State.closeFile st

/-- Go: `main`. -/
def main (fp : Filepath) (flags : Flags) (w : World) : Outcome :=
  let st0 := State.init
  match w.readFile with
  | Except.error err => logFatalf st0 ("Unable to read client secret file: " ++ err)
  | Except.ok _ =>
  match w.jwtConfigFromJSON with
  | some err => logFatalf st0 ("Unable to parse client secret file to config: " ++ err)
  | none =>
  match w.formsNewService with
  | some err => logFatalf st0 ("Unable to create Forms service: " ++ err)
  | none =>
  match w.driveNewService with
  | some err => logFatalf st0 ("Unable to create Drive service: " ++ err)
  | none =>
  let st1 := st0.record (Event.formsCreate "Image Selection Form" w.formsCreate)
  match w.formsCreate with
  | Except.error err => logFatalf st1 ("Unable to create form: " ++ err)
  | Except.ok createdForm =>
  let formID := createdForm.FormId
  let editURL := "https://docs.google.com/forms/d/" ++ formID ++ "/edit"
  let st2 := st1.printf ("Form created with ID: " ++ formID ++ "\n")
  match shareFormWithEmail w formID flags.personalEmail st2 with
  | (some err, st3) => logFatalf st3 ("Unable to share form: " ++ err)
  | (none, st3) =>
  match w.readDir with
  | Except.error err =>
    logFatalf (st3.record (Event.readDir flags.imageFolder (some err)))
      ("Unable to read image folder: " ++ err)
  | Except.ok imageFiles =>
  let st4 := st3.record (Event.readDir flags.imageFolder none)
  let ls := loop fp flags { st := st4, requests := [], index := 0, deferred := [] } imageFiles
  let st5 := ls.st.record (Event.formsBatchUpdate formID ls.requests w.formsBatchUpdate)
  match w.formsBatchUpdate with
  | some err => logFatalf st5 ("Unable to update form: " ++ err)
  | none =>
  let st6 := st5.printf ("Form created and can be edited at: " ++ editURL ++ "\n")
  let publicURL := createdForm.ResponderUri
  let st7 := st6.printf ("Public form URL: " ++ publicURL ++ "\n")
  { exitCode := 0, st := runDeferred st7 ls.deferred }

/-! ## Vocabulary of the properties -/

/-- The permission `uploadAndMakeImagePublic` creates on an uploaded file
(the publish call). -/
def publishPermission : Permission :=
  { Type_ := "anyone", Role := "reader", EmailAddress := "" }

/-- An image fails when its open, its upload or its publish fails. -/
def DirEntry.fails (e : DirEntry) : Bool :=
  e.osOpen.isSome ||
    (match e.filesCreate with
     | Except.ok _ => false
     | Except.error _ => true) ||
    e.permissionsCreate.isSome

/-- An entry is processed when the loop body is entered for it. -/
def DirEntry.processed (e : DirEntry) : Bool :=
  !e.info.IsDir

/-- An entry survives when it is processed and does not fail. -/
def DirEntry.survives (e : DirEntry) : Bool :=
  e.processed && !e.fails

/-- The id the upload of an entry returns (empty when the upload fails). -/
def DirEntry.fileId (e : DirEntry) : String :=
  match e.filesCreate with
  | Except.ok id => id
  | Except.error _ => ""

/-- The entries that survive, in enumeration order. -/
def survivors (es : List DirEntry) : List DirEntry :=
  es.filter DirEntry.survives

/-- The external calls one loop iteration makes for entry `e`, when `serial`
files have been opened before. -/
def entryEvents (fp : Filepath) (flags : Flags) (serial : Nat) (e : DirEntry) : List Event :=
  if e.info.IsDir then []
  else
    match e.osOpen with
    | some err => [Event.osOpen (fp.Join flags.imageFolder e.info.Name) (Except.error err)]
    | none =>
      let h : Handle := { serial := serial, name := fp.Join flags.imageFolder e.info.Name }
      Event.osOpen h.name (Except.ok h) ::
        Event.filesCreate (fp.Base h.name) h e.filesCreate ::
          (match e.filesCreate with
           | Except.ok id => [Event.permissionsCreate id publishPermission e.permissionsCreate]
           | Except.error _ => [])

/-- Calls made inside the loop: open, upload, publish. -/
def Event.isPerImage : Event → Bool
  | Event.osOpen _ _ => true
  | Event.filesCreate _ _ _ => true
  | Event.permissionsCreate _ perm _ => decide (perm = publishPermission)
  | _ => false

/-- A share call: a permission created for a named user. -/
def Event.isShare : Event → Bool
  | Event.permissionsCreate _ perm _ => decide (perm.Type_ = "user")
  | _ => false

/-- An upload call. -/
def Event.isUpload : Event → Bool
  | Event.filesCreate _ _ _ => true
  | _ => false

/-- A form-create call. -/
def Event.isFormsCreate : Event → Bool
  | Event.formsCreate _ _ => true
  | _ => false

/-- A batch-update call. -/
def Event.isBatchUpdate : Event → Bool
  | Event.formsBatchUpdate _ _ _ => true
  | _ => false

/-- The batch-update calls of a trace: form id and request list of each. -/
def batchUpdates (tr : List Event) : List (String × List Request) :=
  tr.filterMap (fun ev =>
    match ev with
    | Event.formsBatchUpdate formId requests _ => some (formId, requests)
    | _ => none)

/-- The ids returned by the successful uploads of a trace, in call order. -/
def uploadedIdsOf (tr : List Event) : List String :=
  tr.filterMap (fun ev =>
    match ev with
    | Event.filesCreate _ _ (Except.ok id) => some id
    | _ => none)

/-- The paths given to `os.Open`, in call order. -/
def openedPathsOf (tr : List Event) : List String :=
  tr.filterMap (fun ev =>
    match ev with
    | Event.osOpen path _ => some path
    | _ => none)

/-- The file handles open after the calls of a trace: opened and not closed. -/
def openAfter (tr : List Event) : List Handle :=
  tr.foldl (fun acc ev =>
    match ev with
    | Event.osOpen _ (Except.ok h) => h :: acc
    | Event.fileClose h => acc.filter (fun x => decide (x ≠ h))
    | _ => acc) []

/-- The calls of a trace made before its first batch-update call. -/
def beforeBatchUpdate (tr : List Event) : List Event :=
  tr.takeWhile (fun ev => !ev.isBatchUpdate)

/-- The calls of a trace made before the first `os.Open` of `path`. -/
def beforeOpen (path : String) (tr : List Event) : List Event :=
  tr.takeWhile (fun ev =>
    match ev with
    | Event.osOpen p _ => decide (p ≠ path)
    | _ => true)

/-- State in which `main` enters the loop when credential load, form create,
share and directory read have succeeded. -/
def stagingStart (flags : Flags) (cf : CreatedForm) : LoopState :=
  { st :=
    { trace :=
        [Event.formsCreate "Image Selection Form" (Except.ok cf),
         Event.permissionsCreate cf.FormId
           { Type_ := "user", Role := "writer", EmailAddress := flags.personalEmail } none,
         Event.readDir flags.imageFolder none],
      stdout := ["Form created with ID: " ++ cf.FormId ++ "\n"],
      log := [],
      openFiles := [],
      opened := 0 },
    requests := [],
    index := 0,
    deferred := [] }

/-- Number of newline characters written to standard output. -/
def stdoutLines (st : State) : Nat :=
  (String.join st.stdout).data.count (Char.ofNat 10)

/-! ## Concrete runs -/

/-- A concrete `Filepath`: join with a slash, base name after the last slash. -/
def exFilepath : Filepath :=
  { Join := fun d n => d ++ "/" ++ n,
    Base := fun p =>
      String.mk (p.data.reverse.takeWhile (fun c => decide (c ≠ Char.ofNat 47))).reverse }

/-- Flags of the end-to-end scenarios. -/
def exFlags : Flags :=
  { credentialsFile := "credentials.json",
    imageFolder := "images",
    personalEmail := "user@example.com" }

/-- A directory entry whose open and publish succeed. -/
def exEntry (name : String) (kind : FileKind) (upload : Except String String) : DirEntry :=
  { info := { Name := name, kind := kind },
    osOpen := none,
    filesCreate := upload,
    permissionsCreate := none }

/-- The form the fake Forms service creates. -/
def exForm : CreatedForm :=
  { FormId := "F1", ResponderUri := "https://docs.google.com/forms/d/e/R1/viewform" }

/-- A world in which every form-level call succeeds. -/
def exWorld (entries : List DirEntry) : World :=
  { readFile := Except.ok "secret",
    jwtConfigFromJSON := none,
    formsNewService := none,
    driveNewService := none,
    formsCreate := Except.ok exForm,
    sharePermissionsCreate := none,
    readDir := Except.ok entries,
    formsBatchUpdate := none }

/-- Scenario 4: images a, b, c where the upload of b fails. -/
def exABC : List DirEntry :=
  [exEntry "a" FileKind.regular (Except.ok "ida"),
   exEntry "b" FileKind.regular (Except.error "network"),
   exEntry "c" FileKind.regular (Except.ok "idc")]

/-- A folder in which every image fails: open fails for a, upload fails for
b, publish fails for c; a subdirectory is skipped. -/
def exAllFail : List DirEntry :=
  [{ info := { Name := "a", kind := FileKind.regular },
     osOpen := some "permission denied", filesCreate := Except.ok "ida",
     permissionsCreate := none },
   { info := { Name := "sub", kind := FileKind.dir },
     osOpen := none, filesCreate := Except.ok "ids", permissionsCreate := none },
   { info := { Name := "b", kind := FileKind.regular },
     osOpen := none, filesCreate := Except.error "network", permissionsCreate := none },
   { info := { Name := "c", kind := FileKind.regular },
     osOpen := none, filesCreate := Except.ok "idc", permissionsCreate := some "not found" }]

/-- Scenario 3 with a symbolic link in place of the regular file. -/
def exSubLink : List DirEntry :=
  [exEntry "sub" FileKind.dir (Except.ok "ids"),
   exEntry "link" FileKind.symlink (Except.ok "idl")]

/-- Scenario 3: a subdirectory and a regular file. -/
def exSubFile : List DirEntry :=
  [exEntry "sub" FileKind.dir (Except.ok "ids"),
   exEntry "c.jpg" FileKind.regular (Except.ok "idc")]

/-- Two images that both succeed. -/
def exAB : List DirEntry :=
  [exEntry "a" FileKind.regular (Except.ok "ida"),
   exEntry "b" FileKind.regular (Except.ok "idb")]

/-- Images a, c, d where the publish of c fails. -/
def exPublishFail : List DirEntry :=
  [exEntry "a" FileKind.regular (Except.ok "ida"),
   { info := { Name := "c", kind := FileKind.regular },
     osOpen := none, filesCreate := Except.ok "idc", permissionsCreate := some "not found" },
   exEntry "d" FileKind.regular (Except.ok "idd")]

theorem loop_cons (fp : Filepath) (flags : Flags) (ls : LoopState) (e : DirEntry)
    (es : List DirEntry) :
    loop fp flags ls (e :: es) = loop fp flags (loopBody fp flags ls e) es := rfl

theorem loopBody_dir (fp : Filepath) (flags : Flags) (ls : LoopState) (e : DirEntry)
    (h : e.info.IsDir = true) : loopBody fp flags ls e = ls := by
  simp [loopBody, h]

theorem loopBody_survives (fp : Filepath) (flags : Flags) (ls : LoopState) (e : DirEntry)
    (h : e.survives = true) :
    (loopBody fp flags ls e).requests =
        ls.requests ++ [mkRequest ("https://drive.google.com/uc?id=" ++ e.fileId) ls.index] ∧
      (loopBody fp flags ls e).index = ls.index + 1 := by
  obtain ⟨info, o, f, p⟩ := e
  cases hd : info.IsDir <;> cases o <;> cases f <;> cases p <;>
    simp_all [loopBody, DirEntry.survives, DirEntry.processed, DirEntry.fails, DirEntry.fileId,
      uploadAndMakeImagePublic, State.openFile, State.record, State.logPrintf]

theorem loopBody_not_survives (fp : Filepath) (flags : Flags) (ls : LoopState) (e : DirEntry)
    (h : e.survives = false) :
    (loopBody fp flags ls e).requests = ls.requests ∧
      (loopBody fp flags ls e).index = ls.index := by
  obtain ⟨info, o, f, p⟩ := e
  cases hd : info.IsDir <;> cases o <;> cases f <;> cases p <;>
    simp_all [loopBody, DirEntry.survives, DirEntry.processed, DirEntry.fails, DirEntry.fileId,
      uploadAndMakeImagePublic, State.openFile, State.record, State.logPrintf]

theorem loopBody_trace (fp : Filepath) (flags : Flags) (ls : LoopState) (e : DirEntry) :
    (loopBody fp flags ls e).st.trace =
      ls.st.trace ++ entryEvents fp flags ls.st.opened e := by
  obtain ⟨info, o, f, p⟩ := e
  cases hd : info.IsDir <;> cases o <;> cases f <;> cases p <;>
    simp [loopBody, entryEvents, hd, uploadAndMakeImagePublic, State.openFile, State.record,
      State.logPrintf, publishPermission]

theorem loopBody_stdout (fp : Filepath) (flags : Flags) (ls : LoopState) (e : DirEntry) :
    (loopBody fp flags ls e).st.stdout = ls.st.stdout := by
  obtain ⟨info, o, f, p⟩ := e
  cases hd : info.IsDir <;> cases o <;> cases f <;> cases p <;>
    simp [loopBody, hd, uploadAndMakeImagePublic, State.openFile, State.record,
      State.logPrintf]

theorem entryEvents_perImage (fp : Filepath) (flags : Flags) (serial : Nat) (e : DirEntry) :
    ∀ ev ∈ entryEvents fp flags serial e, ev.isPerImage = true := by
  obtain ⟨info, o, f, p⟩ := e
  cases hd : info.IsDir <;> cases o <;> cases f <;> cases p <;>
    simp [entryEvents, hd, Event.isPerImage]

theorem loop_requests (fp : Filepath) (flags : Flags) (es : List DirEntry) :
    ∀ ls : LoopState,
      (loop fp flags ls es).requests =
        ls.requests ++ ((survivors es).enumFrom ls.index).map
          (fun p => mkRequest ("https://drive.google.com/uc?id=" ++ p.2.fileId) p.1) := by
  induction es with
  | nil => intro ls; simp [loop, survivors]
  | cons e es ih =>
    intro ls
    rw [loop_cons, ih]
    cases hs : e.survives
    · obtain ⟨h1, h2⟩ := loopBody_not_survives fp flags ls e hs
      simp [survivors, List.filter_cons, hs, h1, h2]
    · obtain ⟨h1, h2⟩ := loopBody_survives fp flags ls e hs
      simp [survivors, List.filter_cons, hs, h1, h2]

theorem loop_stdout (fp : Filepath) (flags : Flags) (es : List DirEntry) :
    ∀ ls : LoopState, (loop fp flags ls es).st.stdout = ls.st.stdout := by
  induction es with
  | nil => intro ls; rfl
  | cons e es ih => intro ls; rw [loop_cons, ih, loopBody_stdout]

theorem loop_trace (fp : Filepath) (flags : Flags) (es : List DirEntry) :
    ∀ ls : LoopState, ∃ evs : List Event,
      (loop fp flags ls es).st.trace = ls.st.trace ++ evs ∧
        ∀ ev ∈ evs, ev.isPerImage = true := by
  induction es with
  | nil => intro ls; exact ⟨[], by simp [loop], by simp⟩
  | cons e es ih =>
    intro ls
    obtain ⟨evs, h1, h2⟩ := ih (loopBody fp flags ls e)
    refine ⟨entryEvents fp flags ls.st.opened e ++ evs, ?_, ?_⟩
    · rw [loop_cons, h1, loopBody_trace, List.append_assoc]
    · intro ev hev
      rcases List.mem_append.1 hev with h | h
      · exact entryEvents_perImage fp flags _ e ev h
      · exact h2 ev h

/-- A projection of the trace of the loop is the concatenation of the
projections of the events of each entry. -/
theorem loop_project {β : Type} (fp : Filepath) (flags : Flags)
    (P : List Event → List β) (hP : ∀ a b, P (a ++ b) = P a ++ P b)
    (g : DirEntry → List β)
    (hg : ∀ serial e, P (entryEvents fp flags serial e) = g e) (es : List DirEntry) :
    ∀ ls : LoopState,
      P (loop fp flags ls es).st.trace = P ls.st.trace ++ (es.map g).flatten := by
  induction es with
  | nil => intro ls; simp [loop]
  | cons e es ih =>
    intro ls
    rw [loop_cons, ih, loopBody_trace, hP, hg]
    simp

theorem flatten_map_ite {β : Type} (c : DirEntry → Bool) (f : DirEntry → β)
    (es : List DirEntry) :
    (es.map (fun e => if c e = true then [f e] else [])).flatten = (es.filter c).map f := by
  induction es with
  | nil => rfl
  | cons e es ih =>
    cases hc : c e <;> simp [List.filter_cons, hc, ih]

theorem loop_openedPaths (fp : Filepath) (flags : Flags) (es : List DirEntry)
    (ls : LoopState) :
    openedPathsOf (loop fp flags ls es).st.trace =
      openedPathsOf ls.st.trace ++
        (es.filter DirEntry.processed).map (fun e => fp.Join flags.imageFolder e.info.Name) := by
  rw [← flatten_map_ite]
  refine loop_project fp flags openedPathsOf (fun a b => by simp [openedPathsOf]) _ ?_ es ls
  intro serial e
  obtain ⟨info, o, f, p⟩ := e
  cases hd : info.IsDir <;> cases o <;> cases f <;> cases p <;>
    simp [entryEvents, hd, openedPathsOf, DirEntry.processed]

/-! ## The run as a whole -/

theorem runDeferred_trace (d : List Handle) :
    ∀ st : State, (runDeferred st d).trace = st.trace ++ d.map Event.fileClose := by
  induction d with
  | nil => intro st; simp [runDeferred]
  | cons h d ih =>
    intro st
    have := ih (st.closeFile h)
    simp only [runDeferred, List.foldl_cons] at this ⊢
    rw [this]
    simp [State.closeFile]

theorem runDeferred_stdout (d : List Handle) :
    ∀ st : State, (runDeferred st d).stdout = st.stdout := by
  induction d with
  | nil => intro st; simp [runDeferred]
  | cons h d ih =>
    intro st
    have := ih (st.closeFile h)
    simp only [runDeferred, List.foldl_cons] at this ⊢
    rw [this]
    simp [State.closeFile]

/-- The run when credential load, form create, share and directory read
succeed: the loop, then the batch update. -/
theorem main_of_staged (fp : Filepath) (flags : Flags) (w : World) (creds : String)
    (cf : CreatedForm) (es : List DirEntry)
    (h1 : w.readFile = Except.ok creds) (h2 : w.jwtConfigFromJSON = none)
    (h3 : w.formsNewService = none) (h4 : w.driveNewService = none)
    (h5 : w.formsCreate = Except.ok cf) (h6 : w.sharePermissionsCreate = none)
    (h7 : w.readDir = Except.ok es) :
    main fp flags w =
      (match w.formsBatchUpdate with
       | some err =>
         logFatalf
           ((loop fp flags (stagingStart flags cf) es).st.record
             (Event.formsBatchUpdate cf.FormId (loop fp flags (stagingStart flags cf) es).requests
               w.formsBatchUpdate))
           ("Unable to update form: " ++ err)
       | none =>
         { exitCode := 0,
           st := runDeferred
             ((((loop fp flags (stagingStart flags cf) es).st.record
                 (Event.formsBatchUpdate cf.FormId
                   (loop fp flags (stagingStart flags cf) es).requests w.formsBatchUpdate)).printf
                 ("Form created and can be edited at: " ++
                   ("https://docs.google.com/forms/d/" ++ cf.FormId ++ "/edit") ++ "\n")).printf
               ("Public form URL: " ++ cf.ResponderUri ++ "\n"))
             (loop fp flags (stagingStart flags cf) es).deferred }) := by
  simp [main, h1, h2, h3, h4, h5, h6, h7, shareFormWithEmail, stagingStart, State.record,
    State.printf, State.init]

/-- The trace of such a run: the calls up to the end of the loop, the batch
update, then the deferred closes. -/
theorem main_trace_staged (fp : Filepath) (flags : Flags) (w : World) (creds : String)
    (cf : CreatedForm) (es : List DirEntry)
    (h1 : w.readFile = Except.ok creds) (h2 : w.jwtConfigFromJSON = none)
    (h3 : w.formsNewService = none) (h4 : w.driveNewService = none)
    (h5 : w.formsCreate = Except.ok cf) (h6 : w.sharePermissionsCreate = none)
    (h7 : w.readDir = Except.ok es) :
    ∃ closes : List Handle,
      (main fp flags w).st.trace =
        (loop fp flags (stagingStart flags cf) es).st.trace ++
          Event.formsBatchUpdate cf.FormId (loop fp flags (stagingStart flags cf) es).requests
            w.formsBatchUpdate :: closes.map Event.fileClose := by
  rw [main_of_staged fp flags w creds cf es h1 h2 h3 h4 h5 h6 h7]
  cases hb : w.formsBatchUpdate with
  | some err => exact ⟨[], by simp [logFatalf, State.logPrintf, State.record]⟩
  | none =>
    exact ⟨(loop fp flags (stagingStart flags cf) es).deferred,
      by simp [runDeferred_trace, State.printf, State.record]⟩

theorem batchUpdates_perImage (evs : List Event) (h : ∀ ev ∈ evs, ev.isPerImage = true) :
    batchUpdates evs = [] := by
  induction evs with
  | nil => rfl
  | cons ev evs ih =>
    have h0 := h ev (List.mem_cons_self _ _)
    have ih1 := ih (fun x hx => h x (List.mem_cons_of_mem _ hx))
    cases ev <;> simp_all [batchUpdates, Event.isPerImage]

theorem batchUpdates_closes (closes : List Handle) :
    batchUpdates (closes.map Event.fileClose) = [] := by
  induction closes with
  | nil => rfl
  | cons h t ih => simp_all [batchUpdates]

theorem batchUpdates_append (a b : List Event) :
    batchUpdates (a ++ b) = batchUpdates a ++ batchUpdates b := by
  simp [batchUpdates]

/-- The single batch-update call of a run that reaches it. -/
theorem main_batchUpdates (fp : Filepath) (flags : Flags) (w : World) (creds : String)
    (cf : CreatedForm) (es : List DirEntry)
    (h1 : w.readFile = Except.ok creds) (h2 : w.jwtConfigFromJSON = none)
    (h3 : w.formsNewService = none) (h4 : w.driveNewService = none)
    (h5 : w.formsCreate = Except.ok cf) (h6 : w.sharePermissionsCreate = none)
    (h7 : w.readDir = Except.ok es) :
    batchUpdates (main fp flags w).st.trace =
      [(cf.FormId, (loop fp flags (stagingStart flags cf) es).requests)] := by
  obtain ⟨closes, hc⟩ := main_trace_staged fp flags w creds cf es h1 h2 h3 h4 h5 h6 h7
  obtain ⟨evs, he, hp⟩ := loop_trace fp flags es (stagingStart flags cf)
  rw [hc, he]
  have e1 : batchUpdates (stagingStart flags cf).st.trace = [] := by
    simp [batchUpdates, stagingStart]
  rw [batchUpdates_append, batchUpdates_append, e1, batchUpdates_perImage evs hp]
  have e2 := batchUpdates_closes closes
  simp only [batchUpdates, List.filterMap_cons] at e2 ⊢
  simp [e2]

/-- A run that ends with exit code 0 got a success answer to every
form-level call. -/
theorem main_exit_zero (fp : Filepath) (flags : Flags) (w : World)
    (h : (main fp flags w).exitCode = 0) :
    ∃ (creds : String) (cf : CreatedForm) (es : List DirEntry),
      w.readFile = Except.ok creds ∧ w.jwtConfigFromJSON = none ∧
      w.formsNewService = none ∧ w.driveNewService = none ∧
      w.formsCreate = Except.ok cf ∧ w.sharePermissionsCreate = none ∧
      w.readDir = Except.ok es ∧ w.formsBatchUpdate = none := by
  cases h1 : w.readFile with
  | error e => simp [main, h1, logFatalf] at h
  | ok creds =>
  cases h2 : w.jwtConfigFromJSON with
  | some e => simp [main, h1, h2, logFatalf] at h
  | none =>
  cases h3 : w.formsNewService with
  | some e => simp [main, h1, h2, h3, logFatalf] at h
  | none =>
  cases h4 : w.driveNewService with
  | some e => simp [main, h1, h2, h3, h4, logFatalf] at h
  | none =>
  cases h5 : w.formsCreate with
  | error e => simp [main, h1, h2, h3, h4, h5, logFatalf] at h
  | ok cf =>
  cases h6 : w.sharePermissionsCreate with
  | some e => simp [main, h1, h2, h3, h4, h5, h6, logFatalf, shareFormWithEmail] at h
  | none =>
  cases h7 : w.readDir with
  | error e => simp [main, h1, h2, h3, h4, h5, h6, h7, logFatalf, shareFormWithEmail] at h
  | ok es =>
  cases h8 : w.formsBatchUpdate with
  | some e =>
    rw [main_of_staged fp flags w creds cf es h1 h2 h3 h4 h5 h6 h7] at h
    simp [h8, logFatalf] at h
  | none => exact ⟨creds, cf, es, rfl, rfl, rfl, rfl, rfl, rfl, rfl, rfl⟩

/-- A run whose trace has a batch-update call got a success answer to every
earlier form-level call. -/
theorem main_batch_staged (fp : Filepath) (flags : Flags) (w : World)
    (fid : String) (reqs : List Request) (err : Err)
    (h : Event.formsBatchUpdate fid reqs err ∈ (main fp flags w).st.trace) :
    ∃ (creds : String) (cf : CreatedForm) (es : List DirEntry),
      w.readFile = Except.ok creds ∧ w.jwtConfigFromJSON = none ∧
      w.formsNewService = none ∧ w.driveNewService = none ∧
      w.formsCreate = Except.ok cf ∧ w.sharePermissionsCreate = none ∧
      w.readDir = Except.ok es := by
  cases h1 : w.readFile with
  | error e => simp [main, h1, logFatalf, State.logPrintf, State.init] at h
  | ok creds =>
  cases h2 : w.jwtConfigFromJSON with
  | some e => simp [main, h1, h2, logFatalf, State.logPrintf, State.init] at h
  | none =>
  cases h3 : w.formsNewService with
  | some e => simp [main, h1, h2, h3, logFatalf, State.logPrintf, State.init] at h
  | none =>
  cases h4 : w.driveNewService with
  | some e => simp [main, h1, h2, h3, h4, logFatalf, State.logPrintf, State.init] at h
  | none =>
  cases h5 : w.formsCreate with
  | error e =>
    simp [main, h1, h2, h3, h4, h5, logFatalf, State.logPrintf, State.init, State.record] at h
  | ok cf =>
  cases h6 : w.sharePermissionsCreate with
  | some e =>
    simp [main, h1, h2, h3, h4, h5, h6, logFatalf, State.logPrintf, State.init, State.record,
      State.printf, shareFormWithEmail] at h
  | none =>
  cases h7 : w.readDir with
  | error e =>
    simp [main, h1, h2, h3, h4, h5, h6, h7, logFatalf, State.logPrintf, State.init,
      State.record, State.printf, shareFormWithEmail] at h
  | ok es => exact ⟨creds, cf, es, rfl, rfl, rfl, rfl, rfl, rfl, rfl⟩

/-- The batch-update call of a trace is the one `main` makes after the loop. -/
theorem main_batch_unique (fp : Filepath) (flags : Flags) (w : World)
    (fid : String) (reqs : List Request) (err : Err)
    (h : Event.formsBatchUpdate fid reqs err ∈ (main fp flags w).st.trace) :
    ∃ (cf : CreatedForm) (es : List DirEntry) (evs : List Event) (closes : List Handle),
      w.formsCreate = Except.ok cf ∧ w.readDir = Except.ok es ∧
      fid = cf.FormId ∧
      reqs = (loop fp flags (stagingStart flags cf) es).requests ∧
      (loop fp flags (stagingStart flags cf) es).st.trace =
        (stagingStart flags cf).st.trace ++ evs ∧
      (∀ ev ∈ evs, ev.isPerImage = true) ∧
      (main fp flags w).st.trace =
        (loop fp flags (stagingStart flags cf) es).st.trace ++
          Event.formsBatchUpdate fid reqs err :: closes.map Event.fileClose := by
  obtain ⟨creds, cf, es, h1, h2, h3, h4, h5, h6, h7⟩ := main_batch_staged fp flags w fid reqs err h
  obtain ⟨closes, hc⟩ := main_trace_staged fp flags w creds cf es h1 h2 h3 h4 h5 h6 h7
  obtain ⟨evs, he, hp⟩ := loop_trace fp flags es (stagingStart flags cf)
  rw [hc, he] at h
  have key : fid = cf.FormId ∧ reqs = (loop fp flags (stagingStart flags cf) es).requests ∧
      err = w.formsBatchUpdate := by
    rcases List.mem_append.1 h with h | h
    · rcases List.mem_append.1 h with h | h
      · simp [stagingStart] at h
      · have := hp _ h
        simp [Event.isPerImage] at this
    · rcases List.mem_cons.1 h with h | h
      · injection h with a b c
        exact ⟨a, b, c⟩
      · simp at h
  obtain ⟨k1, k2, k3⟩ := key
  refine ⟨cf, es, evs, closes, h5, h7, k1, k2, he, hp, ?_⟩
  rw [hc, k1, k2, k3]

/-! ## The claims -/

theorem survivors_length (es : List DirEntry) :
    (survivors es).length + ((es.filter DirEntry.processed).filter DirEntry.fails).length =
      (es.filter DirEntry.processed).length := by
  induction es with
  | nil => rfl
  | cons e es ih =>
    simp only [survivors] at ih ⊢
    cases hp : e.processed <;> cases hf : e.fails <;>
      simp only [List.filter_cons, DirEntry.survives, hp, hf, Bool.false_and, Bool.true_and,
        Bool.not_false, Bool.not_true, Bool.false_eq_true, if_false, if_true,
        List.length_cons] <;> omega

theorem staged_requests (fp : Filepath) (flags : Flags) (cf : CreatedForm)
    (es : List DirEntry) :
    (loop fp flags (stagingStart flags cf) es).requests =
      ((survivors es).enumFrom 0).map
        (fun p => mkRequest ("https://drive.google.com/uc?id=" ++ p.2.fileId) p.1) := by
  rw [loop_requests]
  simp [stagingStart]

theorem staged_requests_length (fp : Filepath) (flags : Flags) (cf : CreatedForm)
    (es : List DirEntry) :
    (loop fp flags (stagingStart flags cf) es).requests.length = (survivors es).length := by
  rw [staged_requests]
  simp

theorem staged_requests_index (fp : Filepath) (flags : Flags) (cf : CreatedForm)
    (es : List DirEntry) :
    (loop fp flags (stagingStart flags cf) es).requests.map
        (fun r => r.CreateItem.Location.Index) = List.range (survivors es).length := by
  rw [staged_requests, List.map_map, List.range_eq_range', ← List.enumFrom_map_fst]
  rfl

theorem staged_requests_uri (fp : Filepath) (flags : Flags) (cf : CreatedForm)
    (es : List DirEntry) :
    (loop fp flags (stagingStart flags cf) es).requests.map
        (fun r => r.CreateItem.Item.QuestionItem.Image.SourceUri) =
      (survivors es).map (fun e => "https://drive.google.com/uc?id=" ++ e.fileId) := by
  rw [staged_requests, List.map_map]
  have : ∀ (n : Nat) (l : List DirEntry),
      List.map ((fun r : Request => r.CreateItem.Item.QuestionItem.Image.SourceUri) ∘
        fun p : Nat × DirEntry => mkRequest ("https://drive.google.com/uc?id=" ++ p.2.fileId) p.1)
        (List.enumFrom n l) =
      l.map (fun e => "https://drive.google.com/uc?id=" ++ e.fileId) := by
    intro n l
    induction l generalizing n with
    | nil => rfl
    | cons a l ih =>
      rw [List.enumFrom_cons, List.map_cons, List.map_cons, ih]
      rfl
  exact this 0 _

/-- C1. Skip-on-failure density: when credential load, form create, share and
directory read succeed, and the listing has `N` processed (non-directory)
entries of which `k` fail, the one batch-update call carries exactly `N - k`
create-item requests, the request at position `i` has location index `i`, so
the indices are `0..N-k-1`; with `k = 0` the list has length `N` and indices
`0..N-1`. -/
theorem C1_skip_on_failure_density (fp : Filepath) (flags : Flags) (w : World)
    (creds : String) (cf : CreatedForm) (es : List DirEntry) (N k : Nat)
    (h1 : w.readFile = Except.ok creds) (h2 : w.jwtConfigFromJSON = none)
    (h3 : w.formsNewService = none) (h4 : w.driveNewService = none)
    (h5 : w.formsCreate = Except.ok cf) (h6 : w.sharePermissionsCreate = none)
    (h7 : w.readDir = Except.ok es)
    (hN : (es.filter DirEntry.processed).length = N)
    (hk : ((es.filter DirEntry.processed).filter DirEntry.fails).length = k) :
    ∃ reqs : List Request,
      batchUpdates (main fp flags w).st.trace = [(cf.FormId, reqs)] ∧
      k ≤ N ∧
      reqs.length = N - k ∧
      (∀ (i : Nat) (hi : i < reqs.length),
        (reqs.get ⟨i, hi⟩).CreateItem.Location.Index = i) ∧
      reqs.map (fun r => r.CreateItem.Location.Index) = List.range (N - k) ∧
      (k = 0 → reqs.length = N ∧
        reqs.map (fun r => r.CreateItem.Location.Index) = List.range N) := by
  have hlen := staged_requests_length fp flags cf es
  have hidx := staged_requests_index fp flags cf es
  have hs := survivors_length es
  rw [hN, hk] at hs
  have hsl : (survivors es).length = N - k := by omega
  rw [hsl] at hlen hidx
  refine ⟨_, main_batchUpdates fp flags w creds cf es h1 h2 h3 h4 h5 h6 h7, by omega, hlen,
    ?_, hidx, ?_⟩
  · intro i hi
    have := congrArg (fun l => l[i]?) hidx
    simp only [List.getElem?_map] at this
    rw [List.getElem?_eq_getElem hi] at this
    rw [List.getElem?_range (by omega)] at this
    simpa using this
  · intro hk0
    subst hk0
    exact ⟨by simpa using hlen, by simpa using hidx⟩

/-- Witness of C1 on images a, b, c where the upload of b fails: `N = 3`,
`k = 1`, two requests with indices 0 and 1. -/
theorem C1_skip_on_failure_density_witness :
    ∃ reqs : List Request,
      batchUpdates (main exFilepath exFlags (exWorld exABC)).st.trace =
        [(exForm.FormId, reqs)] ∧
      1 ≤ 3 ∧
      reqs.length = 3 - 1 ∧
      (∀ (i : Nat) (hi : i < reqs.length),
        (reqs.get ⟨i, hi⟩).CreateItem.Location.Index = i) ∧
      reqs.map (fun r => r.CreateItem.Location.Index) = List.range (3 - 1) ∧
      (1 = 0 → reqs.length = 3 ∧
        reqs.map (fun r => r.CreateItem.Location.Index) = List.range 3) :=
  C1_skip_on_failure_density exFilepath exFlags (exWorld exABC) "secret" exForm exABC 3 1
    rfl rfl rfl rfl rfl rfl rfl (by decide) (by decide)

/-- C2. Order preservation: when credential load, form create, share and
directory read succeed, the image source URIs of the batch-update request
list are the public URLs of the surviving images in enumeration order, and
the location indices strictly increase along the list, so an earlier
surviving image always has the lower index. -/
theorem C2_order_preservation (fp : Filepath) (flags : Flags) (w : World)
    (creds : String) (cf : CreatedForm) (es : List DirEntry)
    (h1 : w.readFile = Except.ok creds) (h2 : w.jwtConfigFromJSON = none)
    (h3 : w.formsNewService = none) (h4 : w.driveNewService = none)
    (h5 : w.formsCreate = Except.ok cf) (h6 : w.sharePermissionsCreate = none)
    (h7 : w.readDir = Except.ok es) :
    ∃ reqs : List Request,
      batchUpdates (main fp flags w).st.trace = [(cf.FormId, reqs)] ∧
      reqs.map (fun r => r.CreateItem.Item.QuestionItem.Image.SourceUri) =
        (es.filter DirEntry.survives).map
          (fun e => "https://drive.google.com/uc?id=" ++ e.fileId) ∧
      reqs.Pairwise
        (fun a b => a.CreateItem.Location.Index < b.CreateItem.Location.Index) := by
  refine ⟨_, main_batchUpdates fp flags w creds cf es h1 h2 h3 h4 h5 h6 h7,
    staged_requests_uri fp flags cf es, ?_⟩
  have hidx := staged_requests_index fp flags cf es
  have hp := List.pairwise_lt_range (survivors es).length
  rw [← hidx, List.pairwise_map] at hp
  exact hp

/-- Witness of C2, scenario 4: images a, b, c where the upload of b fails
give the URLs of a and c, in that order, with increasing indices. -/
theorem C2_order_preservation_witness :
    (∃ reqs : List Request,
      batchUpdates (main exFilepath exFlags (exWorld exABC)).st.trace =
        [(exForm.FormId, reqs)] ∧
      reqs.map (fun r => r.CreateItem.Item.QuestionItem.Image.SourceUri) =
        (exABC.filter DirEntry.survives).map
          (fun e => "https://drive.google.com/uc?id=" ++ e.fileId) ∧
      reqs.Pairwise
        (fun a b => a.CreateItem.Location.Index < b.CreateItem.Location.Index)) ∧
      batchUpdates (main exFilepath exFlags (exWorld exABC)).st.trace =
        [("F1", [mkRequest "https://drive.google.com/uc?id=ida" 0,
                 mkRequest "https://drive.google.com/uc?id=idc" 1])] ∧
      (main exFilepath exFlags (exWorld exABC)).st.log =
        ["Failed to upload image images/b: failed to upload image: network"] ∧
      (main exFilepath exFlags (exWorld exABC)).exitCode = 0 :=
  ⟨C2_order_preservation exFilepath exFlags (exWorld exABC) "secret" exForm exABC
    rfl rfl rfl rfl rfl rfl rfl, by decide, by decide, by decide⟩

/-- C8. URL derivation: when the upload returns `id` and the publish
succeeds, `uploadAndMakeImagePublic` returns exactly
`"https://drive.google.com/uc?id="` followed by `id`, with no error, and any
other call with the same id (whatever the file, its name, the state) returns
the same result. -/
theorem C8_url_derivation (fp : Filepath) (w : DirEntry) (imageFile : Handle) (st : State)
    (id : String) (hu : w.filesCreate = Except.ok id) (hp : w.permissionsCreate = none) :
    (uploadAndMakeImagePublic fp w imageFile st).1 =
        Except.ok ("https://drive.google.com/uc?id=" ++ id) ∧
      ∀ (fp2 : Filepath) (w2 : DirEntry) (imageFile2 : Handle) (st2 : State),
        w2.filesCreate = Except.ok id → w2.permissionsCreate = none →
        (uploadAndMakeImagePublic fp2 w2 imageFile2 st2).1 =
          (uploadAndMakeImagePublic fp w imageFile st).1 := by
  refine ⟨by simp [uploadAndMakeImagePublic, hu, hp], ?_⟩
  intro fp2 w2 f2 st2 hu2 hp2
  simp [uploadAndMakeImagePublic, hu, hp, hu2, hp2]

/-- Witness of C8: the id `ida` of image a gives
`https://drive.google.com/uc?id=ida`. -/
theorem C8_url_derivation_witness :
    (uploadAndMakeImagePublic exFilepath (exEntry "a" FileKind.regular (Except.ok "ida"))
        { serial := 0, name := "images/a" } State.init).1 =
      Except.ok "https://drive.google.com/uc?id=ida" :=
  (C8_url_derivation exFilepath (exEntry "a" FileKind.regular (Except.ok "ida"))
    { serial := 0, name := "images/a" } State.init "ida" rfl rfl).1

/-- C5. Form creation failure is fatal: when the credential steps succeed and
the form-create call returns an error, that call is the only external call of
the run (no share, no open, upload or publish, no batch update), the exit
code is 1, nothing is written to standard output, and the one log message is
`Unable to create form: ` followed by the error. -/
theorem C5_form_create_failure_fatal (fp : Filepath) (flags : Flags) (w : World)
    (creds err : String)
    (h1 : w.readFile = Except.ok creds) (h2 : w.jwtConfigFromJSON = none)
    (h3 : w.formsNewService = none) (h4 : w.driveNewService = none)
    (h5 : w.formsCreate = Except.error err) :
    (main fp flags w).st.trace =
        [Event.formsCreate "Image Selection Form" (Except.error err)] ∧
      (∀ ev ∈ (main fp flags w).st.trace,
        ev.isShare = false ∧ ev.isPerImage = false ∧ ev.isUpload = false ∧
          ev.isBatchUpdate = false) ∧
      (main fp flags w).exitCode = 1 ∧
      (main fp flags w).exitCode ≠ 0 ∧
      (main fp flags w).st.log = ["Unable to create form: " ++ err] ∧
      (main fp flags w).st.stdout = [] := by
  have hm : main fp flags w =
      logFatalf (State.init.record (Event.formsCreate "Image Selection Form" (Except.error err)))
        ("Unable to create form: " ++ err) := by
    simp [main, h1, h2, h3, h4, h5]
  rw [hm]
  simp [logFatalf, State.logPrintf, State.record, State.init, Event.isShare, Event.isPerImage,
    Event.isUpload, Event.isBatchUpdate]

/-- Witness of C5: the Forms service answers `quota exceeded`. -/
theorem C5_form_create_failure_fatal_witness :
    (main exFilepath exFlags
        { exWorld exABC with formsCreate := Except.error "quota exceeded" }).st.trace =
        [Event.formsCreate "Image Selection Form" (Except.error "quota exceeded")] ∧
      (main exFilepath exFlags
        { exWorld exABC with formsCreate := Except.error "quota exceeded" }).exitCode = 1 ∧
      (main exFilepath exFlags
        { exWorld exABC with formsCreate := Except.error "quota exceeded" }).st.log =
        ["Unable to create form: " ++ "quota exceeded"] :=
  have h := C5_form_create_failure_fatal exFilepath exFlags
    { exWorld exABC with formsCreate := Except.error "quota exceeded" } "secret"
    "quota exceeded" rfl rfl rfl rfl rfl
  ⟨h.1, h.2.2.1, h.2.2.2.2.1⟩

/-- Counterexample to C7: a successful run on an empty folder writes three
lines to standard output, the first being the `Form created with ID` line
printed right after form creation. -/
theorem C7_stdout_two_lines_counterexample :
    (main exFilepath exFlags (exWorld [])).exitCode = 0 ∧
      (main exFilepath exFlags (exWorld [])).st.stdout =
        ["Form created with ID: F1\n",
         "Form created and can be edited at: https://docs.google.com/forms/d/F1/edit\n",
         "Public form URL: https://docs.google.com/forms/d/e/R1/viewform\n"] ∧
      stdoutLines (main exFilepath exFlags (exWorld [])).st = 3 ∧
      stdoutLines (main exFilepath exFlags (exWorld [])).st ≠ 2 := by
  refine ⟨by decide, by decide, by decide, by decide⟩

/-- C7 (amended). Standard output on success: for every run that ends with
exit code 0, standard output is three lines, in this order: the line
`Form created with ID: ` with the form id, the line
`Form created and can be edited at: ` with the edit URL
`https://docs.google.com/forms/d/<form-id>/edit`, and the line
`Public form URL: ` with the responder URL returned by create; nothing else
is written to standard output. -/
theorem C7_stdout_on_success (fp : Filepath) (flags : Flags) (w : World)
    (h : (main fp flags w).exitCode = 0) :
    ∃ cf : CreatedForm, w.formsCreate = Except.ok cf ∧
      (main fp flags w).st.stdout =
        ["Form created with ID: " ++ cf.FormId ++ "\n",
         "Form created and can be edited at: " ++
           ("https://docs.google.com/forms/d/" ++ cf.FormId ++ "/edit") ++ "\n",
         "Public form URL: " ++ cf.ResponderUri ++ "\n"] := by
  obtain ⟨creds, cf, es, h1, h2, h3, h4, h5, h6, h7, h8⟩ := main_exit_zero fp flags w h
  refine ⟨cf, h5, ?_⟩
  rw [main_of_staged fp flags w creds cf es h1 h2 h3 h4 h5 h6 h7]
  simp [h8, runDeferred_stdout, State.printf, State.record, loop_stdout, stagingStart]

/-- Witness of C7 (amended) on scenario 4. -/
theorem C7_stdout_on_success_witness :
    ∃ cf : CreatedForm, (exWorld exABC).formsCreate = Except.ok cf ∧
      (main exFilepath exFlags (exWorld exABC)).st.stdout =
        ["Form created with ID: " ++ cf.FormId ++ "\n",
         "Form created and can be edited at: " ++
           ("https://docs.google.com/forms/d/" ++ cf.FormId ++ "/edit") ++ "\n",
         "Public form URL: " ++ cf.ResponderUri ++ "\n"] :=
  C7_stdout_on_success exFilepath exFlags (exWorld exABC) (by decide)

theorem survivors_eq_nil (es : List DirEntry)
    (hall : ∀ e ∈ es, e.info.IsDir = true ∨ e.fails = true) : survivors es = [] := by
  rw [survivors, List.filter_eq_nil_iff]
  intro e he
  rcases hall e he with h | h <;> simp [DirEntry.survives, DirEntry.processed, h]

theorem loop_filter_processed (fp : Filepath) (flags : Flags) (es : List DirEntry) :
    ∀ ls : LoopState,
      loop fp flags ls (es.filter DirEntry.processed) = loop fp flags ls es := by
  induction es with
  | nil => intro ls; rfl
  | cons e es ih =>
    intro ls
    cases hd : e.info.IsDir
    · have hp : e.processed = true := by simp [DirEntry.processed, hd]
      rw [List.filter_cons, if_pos hp, loop_cons, loop_cons, ih]
    · have hp : ¬ e.processed = true := by simp [DirEntry.processed, hd]
      rw [List.filter_cons, if_neg hp, loop_cons, loopBody_dir fp flags ls e hd, ih]

/-- C6. Per-image failures are never fatal: when credential load, form
create, share and directory read succeed and every entry of the folder is a
directory or fails (in particular when the folder is empty), batch update is
called exactly once, with an empty request list, exactly as in the run on the
empty folder; the exit code and standard output equal those of the run on
the empty folder, and when the batch update succeeds the exit code is 0. -/
theorem C6_per_image_failures_not_fatal (fp : Filepath) (flags : Flags) (w : World)
    (creds : String) (cf : CreatedForm) (es : List DirEntry)
    (h1 : w.readFile = Except.ok creds) (h2 : w.jwtConfigFromJSON = none)
    (h3 : w.formsNewService = none) (h4 : w.driveNewService = none)
    (h5 : w.formsCreate = Except.ok cf) (h6 : w.sharePermissionsCreate = none)
    (h7 : w.readDir = Except.ok es)
    (hall : ∀ e ∈ es, e.info.IsDir = true ∨ e.fails = true) :
    batchUpdates (main fp flags w).st.trace = [(cf.FormId, [])] ∧
      batchUpdates (main fp flags { w with readDir := Except.ok [] }).st.trace =
        [(cf.FormId, [])] ∧
      (main fp flags w).exitCode = (main fp flags { w with readDir := Except.ok [] }).exitCode ∧
      (main fp flags w).st.stdout =
        (main fp flags { w with readDir := Except.ok [] }).st.stdout ∧
      (w.formsBatchUpdate = none →
        (main fp flags w).exitCode = 0 ∧
          (main fp flags { w with readDir := Except.ok [] }).exitCode = 0) := by
  have hb := main_batchUpdates fp flags w creds cf es h1 h2 h3 h4 h5 h6 h7
  have hb0 := main_batchUpdates fp flags { w with readDir := Except.ok [] } creds cf []
    h1 h2 h3 h4 h5 h6 rfl
  have hr : (loop fp flags (stagingStart flags cf) es).requests = [] := by
    rw [staged_requests, survivors_eq_nil es hall]
    rfl
  have hr0 : (loop fp flags (stagingStart flags cf) []).requests = [] := rfl
  rw [hr] at hb
  rw [hr0] at hb0
  have hm := main_of_staged fp flags w creds cf es h1 h2 h3 h4 h5 h6 h7
  have hm0 := main_of_staged fp flags { w with readDir := Except.ok [] } creds cf []
    h1 h2 h3 h4 h5 h6 rfl
  refine ⟨hb, hb0, ?_, ?_, ?_⟩
  · rw [hm, hm0]
    cases hbu : w.formsBatchUpdate <;> simp [logFatalf]
  · rw [hm, hm0]
    cases hbu : w.formsBatchUpdate <;>
      simp [logFatalf, State.logPrintf, State.record, State.printf, runDeferred_stdout,
        loop_stdout]
  · intro hbu
    rw [hm, hm0]
    simp [hbu]

/-- Witness of C6 on a folder in which every image fails. -/
theorem C6_per_image_failures_not_fatal_witness :
    batchUpdates (main exFilepath exFlags (exWorld exAllFail)).st.trace =
        [(exForm.FormId, [])] ∧
      batchUpdates (main exFilepath exFlags
        { exWorld exAllFail with readDir := Except.ok [] }).st.trace = [(exForm.FormId, [])] ∧
      (main exFilepath exFlags (exWorld exAllFail)).exitCode = 0 :=
  have h := C6_per_image_failures_not_fatal exFilepath exFlags (exWorld exAllFail) "secret"
    exForm exAllFail rfl rfl rfl rfl rfl rfl rfl (by decide)
  ⟨h.1, h.2.1, (h.2.2.2.2 rfl).1⟩

theorem openedPathsOf_closes (closes : List Handle) :
    openedPathsOf (closes.map Event.fileClose) = [] := by
  induction closes with
  | nil => rfl
  | cons h t ih => simp_all [openedPathsOf]

/-- Counterexample to C9: a symbolic link is not a regular file, yet it is
opened, uploaded, and gets the create-item request at index 0. -/
theorem C9_only_regular_files_counterexample :
    (exEntry "link" FileKind.symlink (Except.ok "idl")).info.IsRegular = false ∧
      openedPathsOf (main exFilepath exFlags (exWorld exSubLink)).st.trace = ["images/link"] ∧
      uploadedIdsOf (main exFilepath exFlags (exWorld exSubLink)).st.trace = ["idl"] ∧
      batchUpdates (main exFilepath exFlags (exWorld exSubLink)).st.trace =
        [("F1", [mkRequest "https://drive.google.com/uc?id=idl" 0])] := by
  refine ⟨by decide, by decide, by decide, by decide⟩

/-- C9 (amended). Only directories are skipped: the loop body leaves the state
unchanged for a directory entry (no open, upload or publish, no request), so
the run equals the run on the listing without its directories; when
credential load, form create, share and directory read succeed, `os.Open` is
called for every non-directory entry, regular or not, in enumeration order
and for nothing else, and the batch carries one request per non-directory
entry whose open, upload and publish succeed. -/
theorem C9_directories_skipped (fp : Filepath) (flags : Flags) (w : World)
    (creds : String) (cf : CreatedForm) (es : List DirEntry)
    (h1 : w.readFile = Except.ok creds) (h2 : w.jwtConfigFromJSON = none)
    (h3 : w.formsNewService = none) (h4 : w.driveNewService = none)
    (h5 : w.formsCreate = Except.ok cf) (h6 : w.sharePermissionsCreate = none)
    (h7 : w.readDir = Except.ok es) :
    (∀ (ls : LoopState) (e : DirEntry), e.info.IsDir = true → loopBody fp flags ls e = ls) ∧
      main fp flags w =
        main fp flags { w with readDir := Except.ok (es.filter (fun e => !e.info.IsDir)) } ∧
      openedPathsOf (main fp flags w).st.trace =
        (es.filter (fun e => !e.info.IsDir)).map
          (fun e => fp.Join flags.imageFolder e.info.Name) ∧
      ∃ reqs : List Request,
        batchUpdates (main fp flags w).st.trace = [(cf.FormId, reqs)] ∧
        reqs.map (fun r => r.CreateItem.Item.QuestionItem.Image.SourceUri) =
          (es.filter (fun e => !e.info.IsDir && !e.fails)).map
            (fun e => "https://drive.google.com/uc?id=" ++ e.fileId) := by
  have hm := main_of_staged fp flags w creds cf es h1 h2 h3 h4 h5 h6 h7
  have hm0 := main_of_staged fp flags
    { w with readDir := Except.ok (es.filter DirEntry.processed) } creds cf
    (es.filter DirEntry.processed) h1 h2 h3 h4 h5 h6 rfl
  refine ⟨fun ls e h => loopBody_dir fp flags ls e h, ?_, ?_, ?_⟩
  · show main fp flags w =
      main fp flags { w with readDir := Except.ok (es.filter DirEntry.processed) }
    rw [hm, hm0, loop_filter_processed]
  · obtain ⟨closes, hc⟩ := main_trace_staged fp flags w creds cf es h1 h2 h3 h4 h5 h6 h7
    have e1 : openedPathsOf
        (Event.formsBatchUpdate cf.FormId (loop fp flags (stagingStart flags cf) es).requests
          w.formsBatchUpdate :: closes.map Event.fileClose) = [] := by
      have := openedPathsOf_closes closes
      simp only [openedPathsOf, List.filterMap_cons] at this ⊢
      simp [this]
    have e2 : openedPathsOf (stagingStart flags cf).st.trace = [] := by
      simp [openedPathsOf, stagingStart]
    have e3 : ∀ a b, openedPathsOf (a ++ b) = openedPathsOf a ++ openedPathsOf b := by
      intro a b; simp [openedPathsOf]
    rw [hc, e3, e1, loop_openedPaths, e2]
    simp
    rfl
  · exact ⟨_, main_batchUpdates fp flags w creds cf es h1 h2 h3 h4 h5 h6 h7,
      staged_requests_uri fp flags cf es⟩

/-- Witness of C9 (amended), scenario 3: a folder with `sub/` and `c.jpg`
gives a single item at index 0 with the URL of `c.jpg`. -/
theorem C9_directories_skipped_witness :
    openedPathsOf (main exFilepath exFlags (exWorld exSubFile)).st.trace =
        (exSubFile.filter (fun e => !e.info.IsDir)).map
          (fun e => exFilepath.Join exFlags.imageFolder e.info.Name) ∧
      batchUpdates (main exFilepath exFlags (exWorld exSubFile)).st.trace =
        [("F1", [mkRequest "https://drive.google.com/uc?id=idc" 0])] :=
  ⟨(C9_directories_skipped exFilepath exFlags (exWorld exSubFile) "secret" exForm exSubFile
    rfl rfl rfl rfl rfl rfl rfl).2.2.1, by decide⟩

/-- C10, evaluated on two images a and b that both succeed: when b is opened
the handle of a is still open; when batch update is called both handles are
still open; they are closed only when `main` returns, and never when the
batch update fails and the run ends in `log.Fatalf`. On scenario 4 the handle
of b, whose upload failed, is also still open at batch update. -/
theorem C10_handles_stay_open :
    openAfter (beforeOpen "images/b" (main exFilepath exFlags (exWorld exAB)).st.trace) =
        [{ serial := 0, name := "images/a" }] ∧
      openAfter (beforeBatchUpdate (main exFilepath exFlags (exWorld exAB)).st.trace) =
        [{ serial := 1, name := "images/b" }, { serial := 0, name := "images/a" }] ∧
      (loop exFilepath exFlags (stagingStart exFlags exForm) exAB).st.openFiles =
        [{ serial := 1, name := "images/b" }, { serial := 0, name := "images/a" }] ∧
      (main exFilepath exFlags (exWorld exAB)).st.openFiles = [] ∧
      (main exFilepath exFlags
        { exWorld exAB with formsBatchUpdate := some "unavailable" }).st.openFiles =
        [{ serial := 1, name := "images/b" }, { serial := 0, name := "images/a" }] ∧
      openAfter (beforeBatchUpdate (main exFilepath exFlags (exWorld exABC)).st.trace) =
        [{ serial := 2, name := "images/c" }, { serial := 1, name := "images/b" },
         { serial := 0, name := "images/a" }] := by
  refine ⟨by decide, by decide, by decide, by decide, by decide, by decide⟩

theorem perImage_not_share (ev : Event) (h : ev.isPerImage = true) :
    ev.isShare = false ∧ ev.isFormsCreate = false ∧ ev.isBatchUpdate = false := by
  cases ev with
  | permissionsCreate fid perm err =>
    simp only [Event.isPerImage, decide_eq_true_eq] at h
    subst h
    simp [Event.isShare, Event.isFormsCreate, Event.isBatchUpdate, publishPermission]
  | _ => simp_all [Event.isShare, Event.isFormsCreate, Event.isBatchUpdate, Event.isPerImage]

/-- C4. Sharing-before-submission: in every run whose trace has a
batch-update call, the trace starts with the form-create call, followed by
one share call whose arguments are the form id returned by create, the
`--email` value and the role writer; every other call, among them the batch
update of that same form id and every upload, comes after it, and none of
them is a share call, so the trace has exactly one share call. -/
theorem C4_sharing_before_submission (fp : Filepath) (flags : Flags) (w : World)
    (fid : String) (reqs : List Request) (err : Err)
    (h : Event.formsBatchUpdate fid reqs err ∈ (main fp flags w).st.trace) :
    ∃ (cf : CreatedForm) (rest : List Event),
      fid = cf.FormId ∧
      (main fp flags w).st.trace =
        Event.formsCreate "Image Selection Form" (Except.ok cf) ::
          Event.permissionsCreate cf.FormId
            { Type_ := "user", Role := "writer", EmailAddress := flags.personalEmail } none ::
            rest ∧
      Event.formsBatchUpdate fid reqs err ∈ rest ∧
      (∀ ev ∈ rest, ev.isShare = false ∧ ev.isFormsCreate = false) ∧
      (∀ ev ∈ (main fp flags w).st.trace, ev.isUpload = true → ev ∈ rest) ∧
      (main fp flags w).st.trace.filter Event.isShare =
        [Event.permissionsCreate cf.FormId
          { Type_ := "user", Role := "writer", EmailAddress := flags.personalEmail } none] := by
  obtain ⟨cf, es, evs, closes, _, _, hfid, _, he, hp, ht⟩ :=
    main_batch_unique fp flags w fid reqs err h
  have hrest : ∀ ev ∈ Event.readDir flags.imageFolder none :: evs ++
      Event.formsBatchUpdate fid reqs err :: closes.map Event.fileClose,
      ev.isShare = false ∧ ev.isFormsCreate = false := by
    intro ev hev
    rcases List.mem_append.1 hev with h1 | h1
    · rcases List.mem_cons.1 h1 with h1 | h1
      · subst h1; simp [Event.isShare, Event.isFormsCreate]
      · exact ⟨(perImage_not_share ev (hp ev h1)).1, (perImage_not_share ev (hp ev h1)).2.1⟩
    · rcases List.mem_cons.1 h1 with h1 | h1
      · subst h1; simp [Event.isShare, Event.isFormsCreate]
      · obtain ⟨x, _, hx⟩ := List.mem_map.1 h1
        subst hx; simp [Event.isShare, Event.isFormsCreate]
  have htr : (main fp flags w).st.trace =
      Event.formsCreate "Image Selection Form" (Except.ok cf) ::
        Event.permissionsCreate cf.FormId
          { Type_ := "user", Role := "writer", EmailAddress := flags.personalEmail } none ::
          (Event.readDir flags.imageFolder none :: evs ++
            Event.formsBatchUpdate fid reqs err :: closes.map Event.fileClose) := by
    rw [ht, he]
    simp [stagingStart]
  refine ⟨cf, _, hfid, htr, by simp, hrest, ?_, ?_⟩
  · intro ev hev hu
    rw [htr] at hev
    rcases List.mem_cons.1 hev with h1 | h1
    · subst h1; simp [Event.isUpload] at hu
    · rcases List.mem_cons.1 h1 with h1 | h1
      · subst h1; simp [Event.isUpload] at hu
      · exact h1
  · rw [htr]
    have hnil : List.filter Event.isShare (Event.readDir flags.imageFolder none :: evs ++
        Event.formsBatchUpdate fid reqs err :: closes.map Event.fileClose) = [] := by
      rw [List.filter_eq_nil_iff]
      intro ev hev
      simp [(hrest ev hev).1]
    rw [List.filter_cons, List.filter_cons, hnil]
    simp [Event.isShare]

/-- Witness of C4 on images a, c, d where the publish of c fails. -/
theorem C4_sharing_before_submission_witness :
    ∃ (cf : CreatedForm) (rest : List Event),
      "F1" = cf.FormId ∧
      (main exFilepath exFlags (exWorld exPublishFail)).st.trace =
        Event.formsCreate "Image Selection Form" (Except.ok cf) ::
          Event.permissionsCreate cf.FormId
            { Type_ := "user", Role := "writer", EmailAddress := exFlags.personalEmail } none ::
            rest ∧
      (main exFilepath exFlags (exWorld exPublishFail)).st.trace.filter Event.isShare =
        [Event.permissionsCreate cf.FormId
          { Type_ := "user", Role := "writer", EmailAddress := exFlags.personalEmail } none] :=
  have ⟨cf, rest, h1, h2, _, _, _, h6⟩ := C4_sharing_before_submission exFilepath exFlags
    (exWorld exPublishFail) "F1"
    [mkRequest "https://drive.google.com/uc?id=ida" 0,
     mkRequest "https://drive.google.com/uc?id=idd" 1] none (by decide)
  ⟨cf, rest, h1, h2, h6⟩

end Gform
